import Mathlib

/-!
Verification of octojoin's core logic against its natural-language
specification.  Go code is shallowly embedded: `time.Time` instants and
`time.Duration` values both become `Int` nanoseconds (Go's `Duration` unit;
the zero `time.Time` becomes `0`, so `t.IsZero()` becomes `t = 0`,
`time.Since(t)` becomes `now - t`, `time.Until(t)` becomes `t - now`,
`a.Before(b)` becomes `a < b` and `a.After(b)` becomes `a > b`).
Go maps become functions into `Option`, and the outcomes of remote HTTP
calls are supplied as explicit oracle arguments, so every function is
executable and deterministic.
-/

namespace Octojoin

/-- One second in nanoseconds, the unit of Go's `time.Duration`. -/
def second : Int := 1000000000

/-- One minute, as a Go duration. -/
def minute : Int := 60 * second

/-- One hour, as a Go duration. -/
def hourDur : Int := 60 * minute

/-! Constants from `constants.go`. -/

/-- `CacheDurationSavingSessionsOffPeak = 2 * time.Hour` (constants.go). -/
def CacheDurationSavingSessionsOffPeak : Int := 2 * hourDur

/-- `CacheDurationSavingSessionsPeak = 10 * time.Minute` (constants.go). -/
def CacheDurationSavingSessionsPeak : Int := 10 * minute

/-- `CacheDurationSavingSessionsBusiness = 30 * time.Minute` (constants.go). -/
def CacheDurationSavingSessionsBusiness : Int := 30 * minute

/-- `IntervalPeakAnnouncement = 5 * time.Minute` (constants.go). -/
def IntervalPeakAnnouncement : Int := 5 * minute

/-- `IntervalBusinessHours = 10 * time.Minute` (constants.go). -/
def IntervalBusinessHours : Int := 10 * minute

/-- `IntervalOffPeak = 30 * time.Minute` (constants.go). -/
def IntervalOffPeak : Int := 30 * minute

/-- `IntervalEventDrivenBase = 15 * time.Minute` (constants.go). -/
def IntervalEventDrivenBase : Int := 15 * minute

/-- `IntervalEventDrivenIncrement = 5 * time.Minute` (constants.go). -/
def IntervalEventDrivenIncrement : Int := 5 * minute

/-- `IntervalAfterNewSession = 30 * time.Minute` (constants.go). -/
def IntervalAfterNewSession : Int := 30 * minute

/-- `JWTRefreshBuffer = 5 * time.Minute` (constants.go). -/
def JWTRefreshBuffer : Int := 5 * minute

/-- `HTTPMaxRetries = 3` (constants.go); also hard-coded as `maxRetries: 3`
in `NewOctopusClient` (client.go). -/
def HTTPMaxRetries : Nat := 3

/-- `UKPeakAnnouncementStartHour = 14` (constants.go). -/
def UKPeakAnnouncementStartHour : Int := 14

/-- `UKPeakAnnouncementEndHour = 16` (constants.go). -/
def UKPeakAnnouncementEndHour : Int := 16

/-- `UKBusinessHoursStartHour = 9` (constants.go). -/
def UKBusinessHoursStartHour : Int := 9

/-- `UKBusinessHoursEndHour = 18` (constants.go). -/
def UKBusinessHoursEndHour : Int := 18

/-- `StateCleanupAge = 7 * 24 * time.Hour` (constants.go). -/
def StateCleanupAge : Int := 7 * 24 * hourDur

/-- `AlertIntervalFinal = 15 * time.Minute` (constants.go). -/
def AlertIntervalFinal : Int := 15 * minute

/-- `AlertIntervalSixHour = 6 * time.Hour` (constants.go). -/
def AlertIntervalSixHour : Int := 6 * hourDur

/-- `AlertIntervalTwelveHour = 12 * time.Hour` (constants.go). -/
def AlertIntervalTwelveHour : Int := 12 * hourDur

/-- `AlertIntervalDayOf = 24 * time.Hour` (constants.go). -/
def AlertIntervalDayOf : Int := 24 * hourDur

/-- Go `time.Weekday` value for Monday. -/
def weekdayMonday : Int := 1

/-- Go `time.Weekday` value for Friday. -/
def weekdayFriday : Int := 5

/-! `state.go`: cache validity. -/

/-- `AppState.IsCacheValid` (state.go):
`return time.Since(cacheTime) < maxAge`, with `time.Since(t) = now - t`. -/
def IsCacheValid (now cacheTime maxAge : Int) : Bool :=
  decide (now - cacheTime < maxAge)

/-- C8: For every stored timestamp `t` and freshness duration `d`,
`IsCacheValid(t, d)` returns true iff `now - t < d`; in the boundary case
where the entry's age `now - t` equals `d` exactly, it returns false. -/
theorem C8_isCacheValid_iff (now t d : Int) :
    (IsCacheValid now t d = true ↔ now - t < d) ∧
    (now - t = d → IsCacheValid now t d = false) := by
  constructor
  · simp [IsCacheValid]
  · intro h
    simp [IsCacheValid, h]

/-- Witness for C8 at concrete inputs: an entry stored at time 3 read at
time 10 with a ttl of exactly 7 is invalid (boundary case), and with a ttl
of 8 it is valid. -/
theorem C8_isCacheValid_iff_witness :
    IsCacheValid 10 3 7 = false ∧ IsCacheValid 10 3 8 = true := by
  refine ⟨(C8_isCacheValid_iff 10 3 7).2 (by decide), ?_⟩
  exact (C8_isCacheValid_iff 10 3 8).1.mpr (by decide)

/-! `client.go`: the resilient transport `makeRequestWithRetry`.

The outcome of each `c.client.Do(req)` call is supplied by an oracle
`doFn : Nat → DoResult` indexed by the attempt number.  Sleeping (rate
limiting, backoff) has no observable effect on the returned value and is
omitted; the request method/endpoint/body are fixed throughout the
recursion and are omitted as well. -/

/-- Outcome of one `c.client.Do(req)` call: a transport-level error, or a
response with a status code and a body. -/
inductive DoResult where
  | netErr : DoResult
  | resp (status : Int) (body : String) : DoResult
deriving DecidableEq

/-- `OctopusClient.shouldRetry` (client.go): true exactly for statuses
429, 500, 502, 503, 504. -/
def shouldRetry (statusCode : Int) : Bool :=
  statusCode == 429 || statusCode == 500 || statusCode == 502 ||
    statusCode == 503 || statusCode == 504

/-- `OctopusClient.makeRequestWithRetry` (client.go), parameterized by the
remaining retry budget `gas = maxRetries - attempt` (the Go code recurses
with `attempt+1` while `attempt < c.maxRetries`).  On a transport error
with budget left, retry; with no budget, surface the error (`none`).  On a
response with a retryable status and budget left, retry; otherwise return
the response.  No other inspection of the response happens here. -/
def makeRequestWithRetryFrom (doFn : Nat → DoResult) : Nat → Nat → Option (Int × String)
  | 0, attempt =>
    match doFn attempt with
    | .netErr => none
    | .resp s b => some (s, b)
  | gas + 1, attempt =>
    match doFn attempt with
    | .netErr => makeRequestWithRetryFrom doFn gas (attempt + 1)
    | .resp s b =>
      if shouldRetry s then makeRequestWithRetryFrom doFn gas (attempt + 1)
      else some (s, b)

/-- `OctopusClient.makeRequest` (client.go): start the retry recursion at
attempt 0 with the client's `maxRetries = 3`. -/
def makeRequestWithRetry (doFn : Nat → DoResult) : Option (Int × String) :=
  makeRequestWithRetryFrom doFn HTTPMaxRetries 0

/-- First-attempt oracle for the C1 counterexample: the first `Do` call
yields a 401 response, every later attempt would yield 200 "ok". -/
def c1Do401 : Nat → DoResult :=
  fun n => if n = 0 then .resp 401 "auth failed" else .resp 200 "ok"

/-- Second oracle for the C1 counterexample: the first `Do` call yields a
200 response whose body carries the authentication-failure error code
KT-CT-1139; every later attempt would yield 200 "ok". -/
def c1Do200Marker : Nat → DoResult :=
  fun n => if n = 0 then .resp 200 "errors: KT-CT-1139" else .resp 200 "ok"

/-- C1, counterexample: `makeRequestWithRetry` performs no
authentication-driven retry.  A 401 response is returned to the caller
as-is (had the call been retried once as the claim states, the result
would have been the attempt-1 response `200 "ok"`), and a 200 response
whose body contains the known error code KT-CT-1139 is likewise returned
unchanged, its body never inspected.  The stored JWT credential is not
touched: this code path never references the client's JWT fields at all. -/
theorem C1_counterexample :
    makeRequestWithRetry c1Do401 = some (401, "auth failed") ∧
      makeRequestWithRetry c1Do200Marker = some (200, "errors: KT-CT-1139") ∧
      (401 : Int) ≠ 200 := by
  refine ⟨?_, ?_, by decide⟩ <;> rfl

/-- C1 as amended: `makeRequestWithRetry` retries only on transport errors
and on the retryable statuses {429, 500, 502, 503, 504}.  Any first-attempt
response whose status is outside that set — in particular 401, 403, and 200
regardless of body content — is returned to the caller immediately, with no
credential invalidation and no further attempt. -/
theorem C1_no_auth_retry (doFn : Nat → DoResult) (s : Int) (b : String)
    (h : doFn 0 = .resp s b) (hs : shouldRetry s = false) :
    makeRequestWithRetry doFn = some (s, b) ∧
      shouldRetry 401 = false ∧ shouldRetry 403 = false ∧ shouldRetry 200 = false := by
  refine ⟨?_, by decide, by decide, by decide⟩
  simp [makeRequestWithRetry, makeRequestWithRetryFrom, HTTPMaxRetries, h, hs]

/-- Witness for C1-as-amended at a concrete input: the oracle whose first
attempt answers 403 with body "forbidden". -/
theorem C1_no_auth_retry_witness :
    makeRequestWithRetry (fun _ => .resp 403 "forbidden") = some (403, "forbidden") :=
  (C1_no_auth_retry (fun _ => .resp 403 "forbidden") 403 "forbidden" rfl (by decide)).1

/-! `client.go`: `GetSavingSessionsWithCache`.

The remote calls it makes are supplied as oracle arguments:
`restResult` is `getSavingSessionsREST`'s outcome (`none` = error, `some`
= the decoded joined-events list), `pointsResult` is
`getOctoPointsGraphQL`'s outcome, and `hasJoinedCampaign` is
`checkSavingSessionCampaign`'s boolean (that helper swallows its own
errors and returns `false`). -/

/-- `SavingSession` (client.go). -/
structure SavingSession where
  eventId : Int
  startAt : Int
  endAt : Int
  octoPoints : Int
deriving DecidableEq

/-- The payload of `SavingSessionsResponse` (client.go), flattening the
nested anonymous structs to their three leaf fields. -/
structure SSData where
  hasJoinedCampaign : Bool
  joinedEvents : List SavingSession
  currentPointsInWallet : Int
deriving DecidableEq

/-- `CachedSavingSessions` (state.go): cached payload plus fetch
timestamp. -/
structure CachedSavingSessions where
  data : SSData
  timestamp : Int
deriving DecidableEq

/-- The cache guard of `GetSavingSessionsWithCache` (client.go):
`state.CachedSavingSessions != nil &&
 state.IsCacheValid(state.CachedSavingSessions.Timestamp, 5*time.Minute)`.
Note the freshness duration is the hard-coded `5*time.Minute`. -/
def savingSessionsCacheHit (now : Int) (cache : Option CachedSavingSessions) : Bool :=
  match cache with
  | some e => IsCacheValid now e.timestamp (5 * minute)
  | none => false

/-- `OctopusClient.GetSavingSessionsWithCache` (client.go).  Returns
`none` on error, otherwise the response together with the updated cache
entry.  On a cache hit the cached data is returned and the cache is left
unchanged.  Otherwise: a REST failure is propagated; a points failure is
logged and replaced by `points = 0`; the combined result is stored in the
cache with the current timestamp. -/
def GetSavingSessionsWithCache (now : Int) (cache : Option CachedSavingSessions)
    (restResult : Option (List SavingSession)) (pointsResult : Option Int)
    (hasJoinedCampaign : Bool) : Option (SSData × Option CachedSavingSessions) :=
  match cache, savingSessionsCacheHit now cache with
  | some e, true => some (e.data, some e)
  | _, _ =>
    match restResult with
    | none => none
    | some events =>
      let points := match pointsResult with
        | some p => p
        | none => 0
      let result : SSData :=
        { hasJoinedCampaign := hasJoinedCampaign, joinedEvents := events,
          currentPointsInWallet := points }
      some (result, some { data := result, timestamp := now })

/-- C9: if the REST fetch succeeds and the OctoPoints fetch fails on a
cache miss, `GetSavingSessionsWithCache` returns success with
`CurrentPointsInWallet = 0` (the points error is never propagated), stores
that zero-points response in the cache stamped `now`, and every subsequent
read within the entry's freshness window is served that cached zero-points
value no matter what the remote oracles would answer. -/
theorem C9_points_failure_cached_as_zero (now : Int) (cache : Option CachedSavingSessions)
    (events : List SavingSession) (camp : Bool)
    (hmiss : savingSessionsCacheHit now cache = false) :
    (GetSavingSessionsWithCache now cache (some events) none camp =
        some ({ hasJoinedCampaign := camp, joinedEvents := events,
                currentPointsInWallet := 0 },
              some { data := { hasJoinedCampaign := camp, joinedEvents := events,
                               currentPointsInWallet := 0 },
                     timestamp := now })) ∧
      (∀ now' rest' pts' camp', now' - now < 5 * minute →
        GetSavingSessionsWithCache now'
            (some { data := { hasJoinedCampaign := camp, joinedEvents := events,
                              currentPointsInWallet := 0 },
                    timestamp := now })
            rest' pts' camp' =
          some ({ hasJoinedCampaign := camp, joinedEvents := events,
                  currentPointsInWallet := 0 },
                some { data := { hasJoinedCampaign := camp, joinedEvents := events,
                                 currentPointsInWallet := 0 },
                       timestamp := now })) := by
  constructor
  · match cache with
    | none => rfl
    | some e =>
      simp only [savingSessionsCacheHit] at hmiss
      simp [GetSavingSessionsWithCache, savingSessionsCacheHit, hmiss]
  · intro now' rest' pts' camp' hfresh
    have hhit : IsCacheValid now' now (5 * minute) = true := by
      simp [IsCacheValid, hfresh]
    simp [GetSavingSessionsWithCache, savingSessionsCacheHit, hhit]

/-- Witness for C9 at concrete inputs: no cache, REST succeeds with an
empty list, points fetch fails; the call succeeds with 0 points and a read
one minute later is served from the cache. -/
theorem C9_points_failure_cached_as_zero_witness :
    GetSavingSessionsWithCache 0 none (some []) none true =
      some ({ hasJoinedCampaign := true, joinedEvents := [],
              currentPointsInWallet := 0 },
            some { data := { hasJoinedCampaign := true, joinedEvents := [],
                             currentPointsInWallet := 0 },
                   timestamp := 0 }) ∧
    GetSavingSessionsWithCache minute
        (some { data := { hasJoinedCampaign := true, joinedEvents := [],
                          currentPointsInWallet := 0 },
                timestamp := 0 })
        none none false =
      some ({ hasJoinedCampaign := true, joinedEvents := [],
              currentPointsInWallet := 0 },
            some { data := { hasJoinedCampaign := true, joinedEvents := [],
                             currentPointsInWallet := 0 },
                   timestamp := 0 }) := by
  have h := C9_points_failure_cached_as_zero 0 none [] true (by rfl)
  exact ⟨h.1, h.2 minute none none false (by decide)⟩

/-- Cache entry used in the C2 counterexample: a cached response holding
42 points, stored at time 0. -/
def c2Entry : CachedSavingSessions :=
  { data := { hasJoinedCampaign := true, joinedEvents := [],
              currentPointsInWallet := 42 },
    timestamp := 0 }

/-- C2, counterexample: a read 7 minutes after the entry was stored.  The
age (7 min) is below the announcement-window ttl (10 min), the business
ttl (30 min) and the off-peak ttl (2 h), so whichever tier the read time
falls in, the claim predicts the cached value is returned without
fetching.  The code instead refetches — the freshness duration is the
hard-coded 5 minutes — and returns a fresh response (7 points) in place of
the cached one (42 points). -/
theorem C2_counterexample :
    7 * minute - c2Entry.timestamp < CacheDurationSavingSessionsPeak ∧
      7 * minute - c2Entry.timestamp < CacheDurationSavingSessionsBusiness ∧
      7 * minute - c2Entry.timestamp < CacheDurationSavingSessionsOffPeak ∧
      GetSavingSessionsWithCache (7 * minute) (some c2Entry) (some []) (some 7) true =
        some ({ hasJoinedCampaign := true, joinedEvents := [],
                currentPointsInWallet := 7 },
              some { data := { hasJoinedCampaign := true, joinedEvents := [],
                               currentPointsInWallet := 7 },
                     timestamp := 7 * minute }) ∧
      (7 : Int) ≠ 42 := by
  refine ⟨by decide, by decide, by decide, ?_, by decide⟩
  rfl

/-- C2 as amended: `GetSavingSessionsWithCache` applies a fixed 5-minute
freshness duration at every read time — local time-of-day plays no role —
and returns the cached value without fetching iff the entry's age is below
5 minutes.  When the age is 5 minutes or more the fetch really is
performed: a REST-fetch error is then propagated instead of the cached
value being served. -/
theorem C2_fixed_five_minute_ttl (now : Int) (e : CachedSavingSessions) :
    (savingSessionsCacheHit now (some e) = true ↔ now - e.timestamp < 5 * minute) ∧
      (now - e.timestamp < 5 * minute →
        ∀ rest pts camp, GetSavingSessionsWithCache now (some e) rest pts camp =
          some (e.data, some e)) ∧
      (¬ now - e.timestamp < 5 * minute →
        ∀ pts camp, GetSavingSessionsWithCache now (some e) none pts camp = none) := by
  refine ⟨by simp [savingSessionsCacheHit, IsCacheValid], ?_, ?_⟩
  · intro hfresh rest pts camp
    have hhit : IsCacheValid now e.timestamp (5 * minute) = true := by
      simp [IsCacheValid, hfresh]
    simp [GetSavingSessionsWithCache, savingSessionsCacheHit, hhit]
  · intro hstale pts camp
    have hmiss : IsCacheValid now e.timestamp (5 * minute) = false := by
      simp [IsCacheValid, hstale]
    simp [GetSavingSessionsWithCache, savingSessionsCacheHit, hmiss]

/-- Witness for C2-as-amended at concrete inputs: the 42-point entry
stored at time 0 is served at age 4 minutes, and at age 5 minutes a failed
refetch propagates the error. -/
theorem C2_fixed_five_minute_ttl_witness :
    GetSavingSessionsWithCache (4 * minute) (some c2Entry) none none false =
        some (c2Entry.data, some c2Entry) ∧
      GetSavingSessionsWithCache (5 * minute) (some c2Entry) none (some 7) true = none := by
  have h := C2_fixed_five_minute_ttl (4 * minute) c2Entry
  have h5 := C2_fixed_five_minute_ttl (5 * minute) c2Entry
  exact ⟨h.2.1 (by decide) none none false, h5.2.2 (by decide) (some 7) true⟩

/-! `monitor.go`: `getSmartInterval`.

The wall-clock sampling (`time.Now().In(ukLocation)`) is replaced by
explicit arguments: the UK-local `hour` and Go `weekday` (Sunday = 0 …
Saturday = 6), whether `lastNewSessionTime` is the zero time, and
`sinceLastNewSession = time.Since(m.lastNewSessionTime)`. -/

/-- `SavingSessionMonitor.getSmartInterval` (monitor.go). -/
def getSmartInterval (useSmartIntervals : Bool) (checkInterval : Int)
    (hour weekday : Int) (lastNewSessionIsZero : Bool)
    (sinceLastNewSession : Int) (consecutiveEmptyChecks : Int) : Int :=
  if useSmartIntervals = false then checkInterval
  else if lastNewSessionIsZero = false ∧ sinceLastNewSession < IntervalAfterNewSession then
    IntervalPeakAnnouncement
  else if UKPeakAnnouncementStartHour ≤ hour ∧ hour < UKPeakAnnouncementEndHour ∧
      weekdayMonday ≤ weekday ∧ weekday ≤ weekdayFriday then
    IntervalPeakAnnouncement
  else if UKBusinessHoursStartHour ≤ hour ∧ hour < UKBusinessHoursEndHour ∧
      weekdayMonday ≤ weekday ∧ weekday ≤ weekdayFriday then
    IntervalBusinessHours
  else if consecutiveEmptyChecks > 0 then
    let backoffMinutes :=
      IntervalEventDrivenBase / minute +
        IntervalEventDrivenIncrement / minute * consecutiveEmptyChecks
    let maxMinutes := IntervalOffPeak / minute
    let capped := if backoffMinutes > maxMinutes then maxMinutes else backoffMinutes
    capped * minute
  else IntervalOffPeak

/-- C6: with smart scheduling on, outside the weekday announcement window
and weekday business hours, and with no new session observed within the
trailing 30-minute window: a positive consecutive-empty-poll count `n`
yields the interval `15 + 5·n` minutes capped at the 30-minute off-peak
maximum, and `n = 0` yields the off-peak interval. -/
theorem C6_event_driven_backoff (checkInterval hour weekday : Int)
    (lastNewSessionIsZero : Bool) (sinceLastNewSession n : Int)
    (hquiet : lastNewSessionIsZero = true ∨ IntervalAfterNewSession ≤ sinceLastNewSession)
    (hpeak : ¬(UKPeakAnnouncementStartHour ≤ hour ∧ hour < UKPeakAnnouncementEndHour ∧
      weekdayMonday ≤ weekday ∧ weekday ≤ weekdayFriday))
    (hbiz : ¬(UKBusinessHoursStartHour ≤ hour ∧ hour < UKBusinessHoursEndHour ∧
      weekdayMonday ≤ weekday ∧ weekday ≤ weekdayFriday)) :
    (0 < n → getSmartInterval true checkInterval hour weekday lastNewSessionIsZero
        sinceLastNewSession n = min (15 + 5 * n) 30 * minute) ∧
      (n = 0 → getSmartInterval true checkInterval hour weekday lastNewSessionIsZero
        sinceLastNewSession n = IntervalOffPeak) := by
  have hrecent : ¬(lastNewSessionIsZero = false ∧
      sinceLastNewSession < IntervalAfterNewSession) := by
    rcases hquiet with h | h
    · rintro ⟨hz, -⟩
      rw [h] at hz
      exact Bool.noConfusion hz
    · rintro ⟨-, hlt⟩
      exact absurd h (not_le.mpr hlt)
  have houter : ¬(true = false) := by decide
  constructor
  · intro hn
    have h15 : IntervalEventDrivenBase / minute = 15 := by decide
    have h5 : IntervalEventDrivenIncrement / minute = 5 := by decide
    have h30 : IntervalOffPeak / minute = 30 := by decide
    simp only [getSmartInterval, if_neg houter, if_neg hrecent, if_neg hpeak,
      if_neg hbiz, if_pos hn, h15, h5, h30]
    rcases le_or_lt (15 + 5 * n) 30 with hle | hgt
    · rw [if_neg (not_lt.mpr hle), min_eq_left hle]
    · rw [if_pos hgt, min_eq_right hgt.le]
  · intro hn
    simp [getSmartInterval, hrecent, hpeak, hbiz, hn]

/-- Witness for C6 at concrete inputs: Saturday (weekday 6) at 20:00 UK
time, last new session 2 hours ago; after 5 consecutive empty polls the
backoff 15 + 25 = 40 minutes is capped at 30 minutes, and with no empty
polls the interval is the off-peak 30 minutes. -/
theorem C6_event_driven_backoff_witness :
    getSmartInterval true (10 * minute) 20 6 false (2 * hourDur) 5 = 30 * minute ∧
      getSmartInterval true (10 * minute) 20 6 false (2 * hourDur) 0 = IntervalOffPeak := by
  have h5 := C6_event_driven_backoff (10 * minute) 20 6 false (2 * hourDur) 5
    (Or.inr (by decide)) (by decide) (by decide)
  have h0 := C6_event_driven_backoff (10 * minute) 20 6 false (2 * hourDur) 0
    (Or.inr (by decide)) (by decide) (by decide)
  refine ⟨?_, h0.2 rfl⟩
  rw [h5.1 (by decide)]
  decide

/-! `client.go`: `refreshJWTToken`.

The client's JWT fields and the persisted copies in `AppState` form
`JWTState`; the outcome of the token-exchange HTTP call (status, GraphQL
errors, decoded token) is collapsed into a `TokenExchange` oracle: `fail`
covers every error path (non-200 status, undecodable body, GraphQL error
payload), `ok` carries the decoded token and `refreshExpiresIn`
(seconds). -/

/-- The JWT-related state: the in-memory token and expiry on
`OctopusClient` plus the persisted copies on `AppState` (state.go). -/
structure JWTState where
  jwtToken : String
  jwtExpiry : Int
  stateJWTToken : String
  stateJWTTokenExpiry : Int
deriving DecidableEq

/-- Outcome of the token-exchange call inside `refreshJWTToken`. -/
inductive TokenExchange where
  | fail : TokenExchange
  | ok (token : String) (refreshExpiresIn : Int) : TokenExchange
deriving DecidableEq

/-- `OctopusClient.refreshJWTToken` (client.go).  Guard:
`!c.jwtExpiry.IsZero() && time.Until(c.jwtExpiry) > 5*time.Minute` — then
return nil with nothing touched.  Otherwise perform the exchange; an empty
token is an error; on success store the token, set the expiry to
`now + refreshExpiresIn seconds`, and persist both via
`saveJWTToState`. -/
def refreshJWTToken (now : Int) (c : JWTState) (ex : TokenExchange) : Option JWTState :=
  if c.jwtExpiry ≠ 0 ∧ c.jwtExpiry - now > 5 * minute then some c
  else
    match ex with
    | .fail => none
    | .ok token refreshExpiresIn =>
      if token = "" then none
      else
        let c := { c with jwtToken := token,
                          jwtExpiry := now + refreshExpiresIn * second }
        some { c with stateJWTToken := token,
                      stateJWTTokenExpiry := now + refreshExpiresIn * second }

/-- C7: when the stored expiry is non-zero and lies more than the 5-minute
refresh buffer after `now`, `refreshJWTToken` succeeds without performing
a token exchange (the result is the same whatever the exchange oracle
would have answered) and leaves the in-memory token, the expiry, and the
persisted state all unchanged. -/
theorem C7_refresh_noop_when_fresh (now : Int) (c : JWTState) (ex : TokenExchange)
    (hz : c.jwtExpiry ≠ 0) (hfresh : c.jwtExpiry - now > 5 * minute) :
    refreshJWTToken now c ex = some c := by
  simp [refreshJWTToken, hz, hfresh]

/-- Witness for C7 at a concrete input: a token expiring an hour from
`now = 0` is left untouched even though the exchange oracle would fail. -/
theorem C7_refresh_noop_when_fresh_witness :
    refreshJWTToken 0 ⟨"tok", hourDur, "tok", hourDur⟩ .fail =
      some ⟨"tok", hourDur, "tok", hourDur⟩ :=
  C7_refresh_noop_when_fresh 0 ⟨"tok", hourDur, "tok", hourDur⟩ .fail
    (by decide) (by decide)

/-! `monitor.go`: the free-electricity alert state machine. -/

/-- `FreeElectricityAlertState` (monitor.go). -/
structure FreeElectricityAlertState where
  code : String
  initialAlert : Bool
  dayOfAlert : Bool
  twelveHourAlert : Bool
  sixHourAlert : Bool
  finalAlert : Bool
deriving DecidableEq

/-- `FreeElectricitySession` (client.go). -/
structure FreeElectricitySession where
  code : String
  startAt : Int
  endAt : Int
deriving DecidableEq

/-- The `AlertStates` map of `AppState` (state.go), as a function. -/
abbrev AlertStates := String → Option FreeElectricityAlertState

/-- The record `shouldAlert` initializes when no alert state exists for a
code: `&FreeElectricityAlertState{Code: code}`, all flags false. -/
def freshAlertState (code : String) : FreeElectricityAlertState :=
  { code := code, initialAlert := false, dayOfAlert := false,
    twelveHourAlert := false, sixHourAlert := false, finalAlert := false }

/-- The record `shouldAlert` works on after its initialize-if-absent step:
the stored record, or the fresh one just inserted. -/
def effectiveAlert (states : AlertStates) (code : String) : FreeElectricityAlertState :=
  match states code with
  | some a => a
  | none => freshAlertState code

/-- `SavingSessionMonitor.shouldAlert` (monitor.go).  Returns the updated
`AlertStates` map together with the `(bool, string)` pair the Go function
returns.  The initialize-if-absent step means every branch except the
ended-session cleanup leaves a record for `session.Code` in the map. -/
def shouldAlert (now : Int) (states : AlertStates) (s : FreeElectricitySession)
    (timeUntil : Int) : AlertStates × Bool × String :=
  let alert := effectiveAlert states s.code
  let keep : FreeElectricityAlertState → AlertStates := fun a c =>
    if c = s.code then some a else states c
  if s.endAt < now then
    (fun c => if c = s.code then none else states c, false, "")
  else if s.startAt < now ∧ s.endAt > now then
    if alert.finalAlert = false then
      (keep { alert with finalAlert := true }, true, "ACTIVE NOW")
    else (keep alert, false, "")
  else if timeUntil ≤ AlertIntervalFinal ∧ alert.finalAlert = false then
    (keep { alert with finalAlert := true }, true, "STARTING SOON")
  else if timeUntil ≤ AlertIntervalSixHour ∧ alert.sixHourAlert = false then
    (keep { alert with sixHourAlert := true }, true, "6-HOUR REMINDER")
  else if timeUntil ≤ AlertIntervalTwelveHour ∧ alert.twelveHourAlert = false then
    (keep { alert with twelveHourAlert := true }, true, "12-HOUR REMINDER")
  else if timeUntil ≤ AlertIntervalDayOf ∧ alert.dayOfAlert = false then
    (keep { alert with dayOfAlert := true }, true, "DAY-OF REMINDER")
  else if alert.initialAlert = false then
    (keep { alert with initialAlert := true }, true, "INITIAL ALERT")
  else (keep alert, false, "")

/-- `AppState.CleanupExpiredSessions` (state.go): the loop's condition
`time.Since(s.LastUpdated) > StateCleanupAge` does not depend on the entry,
so either every alert state is deleted or none is. -/
def CleanupExpiredSessions (now lastUpdated : Int) (states : AlertStates) : AlertStates :=
  if now - lastUpdated > StateCleanupAge then fun _ => none else states

/-- C10: on the first evaluation of a session whose end has not passed and
whose start is in the future (no record exists for its code yet),
`shouldAlert` always fires some alert and returns true, no matter how far
away the start is: the initial-alert fallback carries no time threshold. -/
theorem C10_first_evaluation_always_fires (now : Int) (states : AlertStates)
    (s : FreeElectricitySession) (hnew : states s.code = none)
    (hend : ¬ s.endAt < now) (hstart : now < s.startAt) :
    (shouldAlert now states s (s.startAt - now)).2.1 = true := by
  have heff : effectiveAlert states s.code = freshAlertState s.code := by
    simp [effectiveAlert, hnew]
  have hact : ¬(s.startAt < now ∧ s.endAt > now) := by
    rintro ⟨h, -⟩
    exact absurd hstart (not_lt.mpr h.le)
  unfold shouldAlert
  rw [heff]
  simp only [freshAlertState]
  split_ifs <;> simp_all

/-- Witness for C10 at a concrete input: a fresh session starting 1000
hours out (far beyond every alert threshold) still fires on first sight. -/
theorem C10_first_evaluation_always_fires_witness :
    (shouldAlert 0 (fun _ => none) ⟨"FE-9", 1000 * hourDur, 1001 * hourDur⟩
      (1000 * hourDur - 0)).2.1 = true :=
  C10_first_evaluation_always_fires 0 (fun _ => none)
    ⟨"FE-9", 1000 * hourDur, 1001 * hourDur⟩ rfl (by decide) (by decide)

/-- Number of stage flags set in an alert record. -/
def setCount (a : FreeElectricityAlertState) : Nat :=
  (if a.initialAlert then 1 else 0) + (if a.dayOfAlert then 1 else 0) +
    (if a.twelveHourAlert then 1 else 0) + (if a.sixHourAlert then 1 else 0) +
    (if a.finalAlert then 1 else 0)

/-- Setting an unset final flag raises the set-flag count by one. -/
theorem setCount_set_final (a : FreeElectricityAlertState) (h : a.finalAlert = false) :
    setCount { a with finalAlert := true } = setCount a + 1 := by
  simp [setCount, h]

/-- Setting an unset six-hour flag raises the set-flag count by one. -/
theorem setCount_set_six (a : FreeElectricityAlertState) (h : a.sixHourAlert = false) :
    setCount { a with sixHourAlert := true } = setCount a + 1 := by
  simp [setCount, h]
  ring

/-- Setting an unset twelve-hour flag raises the set-flag count by one. -/
theorem setCount_set_twelve (a : FreeElectricityAlertState)
    (h : a.twelveHourAlert = false) :
    setCount { a with twelveHourAlert := true } = setCount a + 1 := by
  simp [setCount, h]
  ring

/-- Setting an unset day-of flag raises the set-flag count by one. -/
theorem setCount_set_dayOf (a : FreeElectricityAlertState) (h : a.dayOfAlert = false) :
    setCount { a with dayOfAlert := true } = setCount a + 1 := by
  simp [setCount, h]
  ring

/-- Setting an unset initial flag raises the set-flag count by one. -/
theorem setCount_set_initial (a : FreeElectricityAlertState)
    (h : a.initialAlert = false) :
    setCount { a with initialAlert := true } = setCount a + 1 := by
  simp [setCount, h]
  ring

/-- `shouldAlert` leaves the records of every other code untouched. -/
theorem shouldAlert_apply_ne (now : Int) (states : AlertStates)
    (s : FreeElectricitySession) (timeUntil : Int) (c : String) (hc : c ≠ s.code) :
    (shouldAlert now states s timeUntil).1 c = states c := by
  simp only [shouldAlert]
  split_ifs <;> simp [hc]

/-- Any record surviving a `shouldAlert` call for its own code dominates
the record the call started from, flag by flag. -/
theorem shouldAlert_self_mono (now : Int) (states : AlertStates)
    (s : FreeElectricitySession) (timeUntil : Int) (r' : FreeElectricityAlertState)
    (h : (shouldAlert now states s timeUntil).1 s.code = some r') :
    ((effectiveAlert states s.code).initialAlert = true → r'.initialAlert = true) ∧
      ((effectiveAlert states s.code).dayOfAlert = true → r'.dayOfAlert = true) ∧
      ((effectiveAlert states s.code).twelveHourAlert = true → r'.twelveHourAlert = true) ∧
      ((effectiveAlert states s.code).sixHourAlert = true → r'.sixHourAlert = true) ∧
      ((effectiveAlert states s.code).finalAlert = true → r'.finalAlert = true) := by
  simp only [shouldAlert] at h
  split_ifs at h <;> simp_all
  all_goals cases h
  all_goals simp

/-- `shouldAlert` removes a previously present record only for the
session's own code and only when the session's window has ended. -/
theorem shouldAlert_delete_only_ended (now : Int) (states : AlertStates)
    (s : FreeElectricitySession) (timeUntil : Int) (c : String)
    (r : FreeElectricityAlertState) (hr : states c = some r)
    (h : (shouldAlert now states s timeUntil).1 c = none) :
    c = s.code ∧ s.endAt < now := by
  by_cases hc : c = s.code
  · subst hc
    refine ⟨rfl, ?_⟩
    by_contra hend
    simp only [shouldAlert] at h
    split_ifs at h <;> simp_all
  · rw [shouldAlert_apply_ne now states s timeUntil c hc, hr] at h
    exact absurd h (by simp)

/-- A stage whose flag is already set in the session's record never fires
again: `shouldAlert` cannot return that stage's label. -/
theorem shouldAlert_no_refire (now : Int) (states : AlertStates)
    (s : FreeElectricitySession) (timeUntil : Int) :
    ((effectiveAlert states s.code).finalAlert = true →
        (shouldAlert now states s timeUntil).2.2 ≠ "ACTIVE NOW" ∧
          (shouldAlert now states s timeUntil).2.2 ≠ "STARTING SOON") ∧
      ((effectiveAlert states s.code).sixHourAlert = true →
        (shouldAlert now states s timeUntil).2.2 ≠ "6-HOUR REMINDER") ∧
      ((effectiveAlert states s.code).twelveHourAlert = true →
        (shouldAlert now states s timeUntil).2.2 ≠ "12-HOUR REMINDER") ∧
      ((effectiveAlert states s.code).dayOfAlert = true →
        (shouldAlert now states s timeUntil).2.2 ≠ "DAY-OF REMINDER") ∧
      ((effectiveAlert states s.code).initialAlert = true →
        (shouldAlert now states s timeUntil).2.2 ≠ "INITIAL ALERT") := by
  simp only [shouldAlert]
  split_ifs <;> refine ⟨?_, ?_, ?_, ?_, ?_⟩ <;> simp_all

/-- C4: alert flags are monotonic.  For every code, a record surviving a
`shouldAlert` evaluation keeps every flag that was already set; a present
record is removed only when it is the evaluated session's record and that
session's window has ended; `CleanupExpiredSessions` only deletes whole
records, never clearing a flag of a surviving one; and a stage whose flag
is set never fires again for that record. -/
theorem C4_alert_flags_monotonic (now : Int) (states : AlertStates)
    (s : FreeElectricitySession) (timeUntil : Int) :
    (∀ c r r', states c = some r → (shouldAlert now states s timeUntil).1 c = some r' →
      ((r.initialAlert = true → r'.initialAlert = true) ∧
        (r.dayOfAlert = true → r'.dayOfAlert = true) ∧
        (r.twelveHourAlert = true → r'.twelveHourAlert = true) ∧
        (r.sixHourAlert = true → r'.sixHourAlert = true) ∧
        (r.finalAlert = true → r'.finalAlert = true))) ∧
      (∀ c r, states c = some r → (shouldAlert now states s timeUntil).1 c = none →
        c = s.code ∧ s.endAt < now) ∧
      (∀ now' lu c r, CleanupExpiredSessions now' lu states c = some r →
        states c = some r) ∧
      (((effectiveAlert states s.code).finalAlert = true →
          (shouldAlert now states s timeUntil).2.2 ≠ "ACTIVE NOW" ∧
            (shouldAlert now states s timeUntil).2.2 ≠ "STARTING SOON") ∧
        ((effectiveAlert states s.code).sixHourAlert = true →
          (shouldAlert now states s timeUntil).2.2 ≠ "6-HOUR REMINDER") ∧
        ((effectiveAlert states s.code).twelveHourAlert = true →
          (shouldAlert now states s timeUntil).2.2 ≠ "12-HOUR REMINDER") ∧
        ((effectiveAlert states s.code).dayOfAlert = true →
          (shouldAlert now states s timeUntil).2.2 ≠ "DAY-OF REMINDER") ∧
        ((effectiveAlert states s.code).initialAlert = true →
          (shouldAlert now states s timeUntil).2.2 ≠ "INITIAL ALERT")) := by
  refine ⟨?_, ?_, ?_, shouldAlert_no_refire now states s timeUntil⟩
  · intro c r r' hr hr'
    by_cases hc : c = s.code
    · subst hc
      have heff : effectiveAlert states s.code = r := by simp [effectiveAlert, hr]
      have := shouldAlert_self_mono now states s timeUntil r' hr'
      rw [heff] at this
      exact this
    · rw [shouldAlert_apply_ne now states s timeUntil c hc, hr] at hr'
      obtain rfl : r = r' := by injection hr'
      exact ⟨id, id, id, id, id⟩
  · exact fun c r hr h => shouldAlert_delete_only_ended now states s timeUntil c r hr h
  · intro now' lu c r h
    unfold CleanupExpiredSessions at h
    split_ifs at h
    exact h

/-- Witness for C4 at a concrete input: a record with the day-of flag set,
evaluated 10 hours before the session's start, keeps its day-of flag (the
twelve-hour stage fires instead) and cannot fire "DAY-OF REMINDER". -/
theorem C4_alert_flags_monotonic_witness :
    (∀ r', (shouldAlert 0 (fun c => if c = "FE-2" then
          some ⟨"FE-2", true, true, false, false, false⟩ else none)
        ⟨"FE-2", 10 * hourDur, 11 * hourDur⟩ (10 * hourDur)).1 "FE-2" = some r' →
      r'.dayOfAlert = true) ∧
      (shouldAlert 0 (fun c => if c = "FE-2" then
          some ⟨"FE-2", true, true, false, false, false⟩ else none)
        ⟨"FE-2", 10 * hourDur, 11 * hourDur⟩ (10 * hourDur)).2.2 ≠ "DAY-OF REMINDER" := by
  have h := C4_alert_flags_monotonic 0 (fun c => if c = "FE-2" then
      some ⟨"FE-2", true, true, false, false, false⟩ else none)
    ⟨"FE-2", 10 * hourDur, 11 * hourDur⟩ (10 * hourDur)
  constructor
  · intro r' hr'
    exact ((h.1 "FE-2" ⟨"FE-2", true, true, false, false, false⟩ r' (by simp) hr').2.1) rfl
  · exact h.2.2.2.2.2.2.1 (by simp [effectiveAlert])

/-- Alert map for the C3 counterexample: one record whose initial alert
has already fired, all other stages unset. -/
def c3States : AlertStates := fun c =>
  if c = "FE-1" then some ⟨"FE-1", true, false, false, false, false⟩ else none

/-- C3, counterexample: zero alerts can fire in an evaluation, so "exactly
one alert fires per tick per entity" fails.  A session first seen 30 hours
out fires its initial alert; re-evaluated at 25 hours out — still above the
24-hour day-of threshold, with only the initial flag set — `shouldAlert`
fires nothing and returns false. -/
theorem C3_counterexample :
    (shouldAlert 0 c3States ⟨"FE-1", 25 * hourDur, 26 * hourDur⟩ (25 * hourDur)).2.1 =
        false ∧
      (shouldAlert 0 c3States ⟨"FE-1", 25 * hourDur, 26 * hourDur⟩ (25 * hourDur)).2.2 =
        "" ∧
      c3States "FE-1" = some ⟨"FE-1", true, false, false, false, false⟩ := by
  refine ⟨?_, ?_, rfl⟩ <;> decide

/-- C3 as amended: at most one alert fires per evaluation per entity —
never two stages — with zero fired exactly when every applicable stage has
already fired (or the session's window has ended); `shouldAlert` returns
true iff exactly one stage flag was newly set; and for an upcoming session
the stage that fires is the tightest unset threshold satisfied, walking
from tightest to loosest (≤ 15 m final, ≤ 6 h sixHour, ≤ 12 h twelveHour,
≤ 24 h dayOf, else initial if unset). -/
theorem C3_at_most_one_tightest (now : Int) (states : AlertStates)
    (s : FreeElectricitySession) (timeUntil : Int)
    (states2 : AlertStates) (fired : Bool) (stage : String)
    (hres : shouldAlert now states s timeUntil = (states2, fired, stage)) :
    (∀ r', states2 s.code = some r' →
        setCount r' ≤ setCount (effectiveAlert states s.code) + 1) ∧
      (fired = true ↔ ∃ r', states2 s.code = some r' ∧
        setCount r' = setCount (effectiveAlert states s.code) + 1) ∧
      (¬ s.endAt < now → ¬(s.startAt < now ∧ s.endAt > now) → fired = true →
        (stage = "STARTING SOON" ∧ timeUntil ≤ AlertIntervalFinal ∧
            (effectiveAlert states s.code).finalAlert = false) ∨
          (stage = "6-HOUR REMINDER" ∧ timeUntil ≤ AlertIntervalSixHour ∧
            (effectiveAlert states s.code).sixHourAlert = false ∧
            ¬(timeUntil ≤ AlertIntervalFinal ∧
              (effectiveAlert states s.code).finalAlert = false)) ∨
          (stage = "12-HOUR REMINDER" ∧ timeUntil ≤ AlertIntervalTwelveHour ∧
            (effectiveAlert states s.code).twelveHourAlert = false ∧
            ¬(timeUntil ≤ AlertIntervalFinal ∧
              (effectiveAlert states s.code).finalAlert = false) ∧
            ¬(timeUntil ≤ AlertIntervalSixHour ∧
              (effectiveAlert states s.code).sixHourAlert = false)) ∨
          (stage = "DAY-OF REMINDER" ∧ timeUntil ≤ AlertIntervalDayOf ∧
            (effectiveAlert states s.code).dayOfAlert = false ∧
            ¬(timeUntil ≤ AlertIntervalFinal ∧
              (effectiveAlert states s.code).finalAlert = false) ∧
            ¬(timeUntil ≤ AlertIntervalSixHour ∧
              (effectiveAlert states s.code).sixHourAlert = false) ∧
            ¬(timeUntil ≤ AlertIntervalTwelveHour ∧
              (effectiveAlert states s.code).twelveHourAlert = false)) ∨
          (stage = "INITIAL ALERT" ∧
            (effectiveAlert states s.code).initialAlert = false ∧
            ¬(timeUntil ≤ AlertIntervalFinal ∧
              (effectiveAlert states s.code).finalAlert = false) ∧
            ¬(timeUntil ≤ AlertIntervalSixHour ∧
              (effectiveAlert states s.code).sixHourAlert = false) ∧
            ¬(timeUntil ≤ AlertIntervalTwelveHour ∧
              (effectiveAlert states s.code).twelveHourAlert = false) ∧
            ¬(timeUntil ≤ AlertIntervalDayOf ∧
              (effectiveAlert states s.code).dayOfAlert = false))) := by
  simp only [shouldAlert] at hres
  split_ifs at hres with h1 h2 hf h3 h4 h5 h6 h7 <;>
    (injection hres with hA hBC; injection hBC with hB hC;
     subst hA; subst hB; subst hC)
  · refine ⟨?_, by simp, fun hend _ _ => absurd h1 hend⟩
    intro r' hr'
    simp at hr'
  · refine ⟨?_, ?_, fun _ hact _ => absurd h2 hact⟩
    · intro r' hr'
      simp at hr'
      subst hr'
      exact le_of_eq (setCount_set_final _ hf)
    · constructor
      · intro _
        exact ⟨{ effectiveAlert states s.code with finalAlert := true }, by simp,
          setCount_set_final _ hf⟩
      · intro _
        rfl
  · refine ⟨?_, ?_, fun _ _ hfired => Bool.noConfusion hfired⟩
    · intro r' hr'
      simp at hr'
      subst hr'
      exact Nat.le_succ _
    · constructor
      · intro h
        exact Bool.noConfusion h
      · rintro ⟨r', hr', hc⟩
        simp at hr'
        subst hr'
        omega
  · refine ⟨?_, ?_, fun _ _ _ => Or.inl ⟨rfl, h3.1, h3.2⟩⟩
    · intro r' hr'
      simp at hr'
      subst hr'
      exact le_of_eq (setCount_set_final _ h3.2)
    · constructor
      · intro _
        exact ⟨{ effectiveAlert states s.code with finalAlert := true }, by simp,
          setCount_set_final _ h3.2⟩
      · intro _
        rfl
  · refine ⟨?_, ?_, fun _ _ _ => Or.inr (Or.inl ⟨rfl, h4.1, h4.2, h3⟩)⟩
    · intro r' hr'
      simp at hr'
      subst hr'
      exact le_of_eq (setCount_set_six _ h4.2)
    · constructor
      · intro _
        exact ⟨{ effectiveAlert states s.code with sixHourAlert := true }, by simp,
          setCount_set_six _ h4.2⟩
      · intro _
        rfl
  · refine ⟨?_, ?_, fun _ _ _ => Or.inr (Or.inr (Or.inl ⟨rfl, h5.1, h5.2, h3, h4⟩))⟩
    · intro r' hr'
      simp at hr'
      subst hr'
      exact le_of_eq (setCount_set_twelve _ h5.2)
    · constructor
      · intro _
        exact ⟨{ effectiveAlert states s.code with twelveHourAlert := true }, by simp,
          setCount_set_twelve _ h5.2⟩
      · intro _
        rfl
  · refine ⟨?_, ?_,
      fun _ _ _ => Or.inr (Or.inr (Or.inr (Or.inl ⟨rfl, h6.1, h6.2, h3, h4, h5⟩)))⟩
    · intro r' hr'
      simp at hr'
      subst hr'
      exact le_of_eq (setCount_set_dayOf _ h6.2)
    · constructor
      · intro _
        exact ⟨{ effectiveAlert states s.code with dayOfAlert := true }, by simp,
          setCount_set_dayOf _ h6.2⟩
      · intro _
        rfl
  · refine ⟨?_, ?_,
      fun _ _ _ => Or.inr (Or.inr (Or.inr (Or.inr ⟨rfl, h7, h3, h4, h5, h6⟩)))⟩
    · intro r' hr'
      simp at hr'
      subst hr'
      exact le_of_eq (setCount_set_initial _ h7)
    · constructor
      · intro _
        exact ⟨{ effectiveAlert states s.code with initialAlert := true }, by simp,
          setCount_set_initial _ h7⟩
      · intro _
        rfl
  · refine ⟨?_, ?_, fun _ _ hfired => Bool.noConfusion hfired⟩
    · intro r' hr'
      simp at hr'
      subst hr'
      exact Nat.le_succ _
    · constructor
      · intro h
        exact Bool.noConfusion h
      · rintro ⟨r', hr', hc⟩
        simp at hr'
        subst hr'
        omega


/-- Witness for C3-as-amended at a concrete input: a record whose final
alert already fired, evaluated 5 hours before start, newly sets exactly
one flag (the six-hour stage). -/
theorem C3_at_most_one_tightest_witness :
    ∃ r', (shouldAlert 0 (fun c => if c = "FE-3" then
          some ⟨"FE-3", false, false, false, false, true⟩ else none)
        ⟨"FE-3", 5 * hourDur, 6 * hourDur⟩ (5 * hourDur)).1 "FE-3" = some r' ∧
      setCount r' = setCount (effectiveAlert (fun c => if c = "FE-3" then
          some ⟨"FE-3", false, false, false, false, true⟩ else none) "FE-3") + 1 :=
  (C3_at_most_one_tightest 0 (fun c => if c = "FE-3" then
      some ⟨"FE-3", false, false, false, false, true⟩ else none)
    ⟨"FE-3", 5 * hourDur, 6 * hourDur⟩ (5 * hourDur) _ _ _ rfl).2.1.mp (by decide)

/-! `monitor.go`: the per-session loop of `checkSavingSessions`.

The loop walks `response.Data.SavingSessions.Account.JoinedEvents`; for
each event not yet in `m.state.KnownSessions` it runs the join evaluation
(upcoming check `session.StartAt.After(now)`, threshold check
`shouldJoinSession`, and — when both hold — the `joinSession` call, whose
outcome `joinOk` is only logged) and then marks the event id known.  The
`evaluated` trace records one entry per evaluation performed. -/

/-- Trace of one execution of the loop body for a not-yet-known session:
the id, the future-start check, whether a join was attempted
(`upcoming && shouldJoinSession`), and the join call's outcome. -/
structure JoinEvaluation where
  eventId : Int
  upcoming : Bool
  joinAttempted : Bool
  joinSucceeded : Bool
deriving DecidableEq

/-- Result of running the `checkSavingSessions` loop: the updated
`KnownSessions` set, the `foundNewSessions` flag, and the evaluation
trace. -/
structure CheckSavingResult where
  known : Int → Bool
  foundNewSessions : Bool
  evaluated : List JoinEvaluation

/-- The session loop of `checkSavingSessions` (monitor.go).  The gate is
`if !m.state.KnownSessions[session.EventID]`; the body evaluates the
session and ends with `m.state.KnownSessions[session.EventID] = true`,
regardless of the join outcome. -/
def checkSavingSessionsLoop (now threshold : Int) (joinOk : Int → Bool) :
    List SavingSession → (Int → Bool) → CheckSavingResult
  | [], known => { known := known, foundNewSessions := false, evaluated := [] }
  | sess :: rest, known =>
    if known sess.eventId = true then
      checkSavingSessionsLoop now threshold joinOk rest known
    else
      let upcoming := decide (now < sess.startAt)
      let attempted := upcoming && decide (threshold ≤ sess.octoPoints)
      let succeeded := attempted && joinOk sess.eventId
      let known2 : Int → Bool := fun id => if id = sess.eventId then true else known id
      let r := checkSavingSessionsLoop now threshold joinOk rest known2
      { known := r.known, foundNewSessions := true,
        evaluated := ⟨sess.eventId, upcoming, attempted, succeeded⟩ :: r.evaluated }

/-- After the loop, an id is known iff it was known before or occurs in
the processed list. -/
theorem checkSavingSessionsLoop_known (now threshold : Int) (joinOk : Int → Bool) :
    ∀ (L : List SavingSession) (known : Int → Bool) (id : Int),
      (checkSavingSessionsLoop now threshold joinOk L known).known id =
        (known id || decide (id ∈ L.map SavingSession.eventId)) := by
  intro L
  induction L with
  | nil => intro known id; simp [checkSavingSessionsLoop]
  | cons sess rest ih =>
    intro known id
    by_cases hgate : known sess.eventId = true
    · rw [checkSavingSessionsLoop, if_pos hgate, ih]
      by_cases hid : id = sess.eventId
      · subst hid
        simp [hgate]
      · simp [hid]
    · rw [checkSavingSessionsLoop, if_neg hgate]
      simp only []
      rw [ih]
      by_cases hid : id = sess.eventId
      · subst hid
        simp
      · simp [hid]

/-- The number of evaluations performed for an id: zero if it was already
known, otherwise one exactly when it occurs in the processed list. -/
theorem checkSavingSessionsLoop_count (now threshold : Int) (joinOk : Int → Bool) :
    ∀ (L : List SavingSession) (known : Int → Bool) (id : Int),
      List.countP (fun e => e.eventId == id)
          (checkSavingSessionsLoop now threshold joinOk L known).evaluated =
        if known id = true then 0
        else if id ∈ L.map SavingSession.eventId then 1 else 0 := by
  intro L
  induction L with
  | nil => intro known id; simp [checkSavingSessionsLoop]
  | cons sess rest ih =>
    intro known id
    by_cases hgate : known sess.eventId = true
    · rw [checkSavingSessionsLoop, if_pos hgate, ih]
      by_cases hid : id = sess.eventId
      · subst hid
        simp [hgate]
      · simp [hid]
    · rw [checkSavingSessionsLoop, if_neg hgate]
      simp only [List.countP_cons]
      rw [ih]
      by_cases hid : id = sess.eventId
      · subst hid
        simp [hgate]
      · simp [hid, Ne.symm hid]

/-- The known set and the trace of evaluated ids do not depend on the
join-call outcomes. -/
theorem checkSavingSessionsLoop_joinOk_irrelevant (now threshold : Int)
    (j1 j2 : Int → Bool) :
    ∀ (L : List SavingSession) (known : Int → Bool),
      (checkSavingSessionsLoop now threshold j1 L known).known =
          (checkSavingSessionsLoop now threshold j2 L known).known ∧
        (checkSavingSessionsLoop now threshold j1 L known).foundNewSessions =
          (checkSavingSessionsLoop now threshold j2 L known).foundNewSessions ∧
        (checkSavingSessionsLoop now threshold j1 L known).evaluated.map
            (fun e => e.eventId) =
          (checkSavingSessionsLoop now threshold j2 L known).evaluated.map
            (fun e => e.eventId) := by
  intro L
  induction L with
  | nil => intro known; exact ⟨rfl, rfl, rfl⟩
  | cons sess rest ih =>
    intro known
    by_cases hgate : known sess.eventId = true
    · rw [checkSavingSessionsLoop, checkSavingSessionsLoop, if_pos hgate, if_pos hgate]
      exact ih known
    · rw [checkSavingSessionsLoop, checkSavingSessionsLoop, if_neg hgate, if_neg hgate]
      obtain ⟨hk, hf, he⟩ := ih (fun id => if id = sess.eventId then true else known id)
      exact ⟨hk, rfl, by simpa using he⟩

/-- C5: within a process lifetime, the join evaluation runs exactly once
per saving-session id.  Over two consecutive runs of the loop (lists `L1`
then `L2`, the second starting from the first's known set), an id that was
initially unknown is evaluated exactly once iff it occurs at all; after
the first run the id is in `KnownSessions` exactly when it occurred in
`L1`, independently of the join-call outcomes; and every later occurrence
is skipped by the membership gate. -/
theorem C5_join_evaluation_once (now threshold : Int) (joinOk : Int → Bool)
    (L1 L2 : List SavingSession) (known0 : Int → Bool) (id : Int)
    (h0 : known0 id = false) :
    (List.countP (fun e => e.eventId == id)
        ((checkSavingSessionsLoop now threshold joinOk L1 known0).evaluated ++
          (checkSavingSessionsLoop now threshold joinOk L2
            (checkSavingSessionsLoop now threshold joinOk L1 known0).known).evaluated) =
      if id ∈ (L1 ++ L2).map SavingSession.eventId then 1 else 0) ∧
      ((checkSavingSessionsLoop now threshold joinOk L1 known0).known id =
        decide (id ∈ L1.map SavingSession.eventId)) ∧
      (∀ j2, (checkSavingSessionsLoop now threshold j2 L1 known0).known =
          (checkSavingSessionsLoop now threshold joinOk L1 known0).known ∧
        (checkSavingSessionsLoop now threshold j2 L1 known0).evaluated.map
            (fun e => e.eventId) =
          (checkSavingSessionsLoop now threshold joinOk L1 known0).evaluated.map
            (fun e => e.eventId)) := by
  have hknown1 : (checkSavingSessionsLoop now threshold joinOk L1 known0).known id =
      decide (id ∈ L1.map SavingSession.eventId) := by
    rw [checkSavingSessionsLoop_known, h0, Bool.false_or]
  refine ⟨?_, hknown1, ?_⟩
  · rw [List.countP_append, checkSavingSessionsLoop_count, checkSavingSessionsLoop_count,
      hknown1, h0]
    by_cases h1 : id ∈ L1.map SavingSession.eventId <;>
      by_cases h2 : id ∈ L2.map SavingSession.eventId <;>
        simp [h1, h2]
  · intro j2
    obtain ⟨hk, -, he⟩ := checkSavingSessionsLoop_joinOk_irrelevant now threshold
      j2 joinOk L1 known0
    exact ⟨hk, he⟩

/-- Witness for C5 at concrete inputs: event 7 appears in both runs'
lists; starting from an empty known set it is evaluated exactly once and
is known after the first run. -/
theorem C5_join_evaluation_once_witness :
    (List.countP (fun e => e.eventId == (7 : Int))
        ((checkSavingSessionsLoop 0 100 (fun _ => true)
            [⟨7, hourDur, 2 * hourDur, 150⟩] (fun _ => false)).evaluated ++
          (checkSavingSessionsLoop 0 100 (fun _ => true)
            [⟨7, hourDur, 2 * hourDur, 150⟩]
            (checkSavingSessionsLoop 0 100 (fun _ => true)
              [⟨7, hourDur, 2 * hourDur, 150⟩] (fun _ => false)).known).evaluated) = 1) ∧
      (checkSavingSessionsLoop 0 100 (fun _ => true)
          [⟨7, hourDur, 2 * hourDur, 150⟩] (fun _ => false)).known 7 = true := by
  have h := C5_join_evaluation_once 0 100 (fun _ => true)
    [⟨7, hourDur, 2 * hourDur, 150⟩] [⟨7, hourDur, 2 * hourDur, 150⟩]
    (fun _ => false) 7 rfl
  constructor
  · rw [h.1]
    decide
  · rw [h.2.1]
    decide

end Octojoin
